import Mathlib

/-!
# Authentication controller of Backend_ProductCart

A shallow embedding of `src/controller/authController.go` (package `controllers`):
the handlers `Register`, `Login`, `Logout` and the helper `generateJWT`.

Conventions of the embedding.

* A Go `string` is its sequence of bytes (`GoString`).  Every string literal of the
  source is ASCII, so `lit` maps each character of a literal to the byte of its code.
* The two MongoDB collections (`users`, `blacklisted_tokens`) and the process log are
  the explicit state `World`; a handler maps a world to a response and a new world.
* Everything a handler obtains from outside the program text (body decoding, bcrypt,
  the fresh object id, the outcome of the store call, the clock, the signing secret
  and the HS256 signature) is a field of `Env`; theorems quantify over every `Env`.
* A run-time panic of Go (slice bounds out of range) is the outcome `panicked`.
-/

namespace controllers

/-! ## Strings, identifiers and time -/

/-- Go string: a finite sequence of bytes. -/
abbrev GoString := List UInt8

/-- Bytes of an ASCII string literal of the source. -/
def lit (s : String) : GoString := s.toList.map (fun c => UInt8.ofNat c.toNat)

/-- Go slice expression `s[i:]`: defined when `i ≤ len(s)`, a run-time panic otherwise. -/
def sliceFrom (s : GoString) (i : Nat) : Option GoString :=
  if i ≤ s.length then some (s.drop i) else none

/-- The type `primitive.ObjectID`: the bytes of the identifier (twelve in the driver). -/
structure ObjectID where
  bytes : List UInt8
deriving DecidableEq, Repr

/-- One lower-case hexadecimal digit, as `encoding/hex` writes it. -/
def hexDigit (n : Nat) : UInt8 :=
  if n < 10 then UInt8.ofNat (48 + n) else UInt8.ofNat (87 + n)

/-- The method `ObjectID.Hex`: two hexadecimal digits per byte. -/
def ObjectID.Hex (id : ObjectID) : GoString :=
  id.bytes.flatMap (fun b => [hexDigit (b.toNat / 16), hexDigit (b.toNat % 16)])

/-- A `time.Time`, as nanoseconds since the Unix epoch.  The instants a wall clock
returns are far inside the range of the `int64` fields, so no wrap-around is modelled. -/
abbrev Time := Int

/-- A `time.Duration`, in nanoseconds. -/
abbrev Duration := Int

/-- The constant `time.Second`. -/
def Second : Duration := 1000000000

/-- The constant `time.Hour`. -/
def Hour : Duration := 3600 * Second

/-- The method `Time.Add`. -/
def Time.Add (t : Time) (d : Duration) : Time := t + d

/-- The method `Time.Unix`: whole seconds since the epoch (rounded down). -/
def Time.Unix (t : Time) : Int := t / Second

/-! ## Data model -/

/-- Modelled from the spec: the declaration of `models.User` is not under `src/`; these
are the fields the controller reads and writes (identifier, display name, email and
password, the last holding the bcrypt hash once stored). -/
structure User where
  ID : ObjectID
  Name : GoString
  Email : GoString
  Password : GoString
deriving DecidableEq, Repr

/-- Modelled from the spec: the declaration of `models.BlacklistedToken` is not under
`src/`; a record holds the token string and the revocation time in seconds since the
epoch. -/
structure BlacklistedToken where
  Token : GoString
  CreatedAt : Int
deriving DecidableEq, Repr

/-- A value stored in a `fiber.Map`: a string, a `models.User`, or a nested `fiber.Map`
whose values are strings (the only shapes the controller builds). -/
inductive Value where
  | str (s : GoString)
  | user (u : User)
  | map (m : List (GoString × GoString))
deriving DecidableEq, Repr

/-- A `fiber.Map` literal: its key/value pairs in source order. -/
abbrev Map := List (GoString × Value)

/-- A value stored in a `jwt.MapClaims`. -/
inductive ClaimValue where
  | str (s : GoString)
  | num (n : Int)
deriving DecidableEq, Repr

/-- The type `jwt.MapClaims`, as an association list with distinct keys. -/
abbrev MapClaims := List (GoString × ClaimValue)

/-- Map assignment `claims[k] = v`: overwrite the entry of `k`, or add one. -/
def MapClaims.set : MapClaims → GoString → ClaimValue → MapClaims
  | [], k, v => [(k, v)]
  | (k0, v0) :: rest, k, v =>
    if k0 = k then (k, v) :: rest else (k0, v0) :: MapClaims.set rest k v

/-- Map read `claims[k]`. -/
def MapClaims.get (m : MapClaims) (k : GoString) : Option ClaimValue :=
  (m.find? (fun p => p.1 = k)).map Prod.snd

/-- The HTTP response a handler sends: `c.Status(status).JSON(body)`. -/
structure Response where
  status : Nat
  body : Map
deriving DecidableEq, Repr

def StatusOK : Nat := 200
def StatusCreated : Nat := 201
def StatusBadRequest : Nat := 400
def StatusUnauthorized : Nat := 401
def StatusInternalServerError : Nat := 500

/-- The part of a `fiber.Ctx` the handlers read: the request body and the
`Authorization` header (`none` when the header is absent). -/
structure Ctx where
  Body : GoString
  Authorization : Option GoString
deriving DecidableEq, Repr

/-- The call `c.Get("Authorization")`: the header value, the empty string when absent. -/
def Ctx.Get (c : Ctx) : GoString := c.Authorization.getD []

/-- Persistent state and log of the process. -/
structure World where
  users : List User
  blacklisted_tokens : List BlacklistedToken
  log : List GoString
deriving DecidableEq, Repr

/-- Everything one handler invocation receives from outside the program text. -/
structure Env where
  /-- The call `c.BodyParser(&user)`: the decoded user, `none` on a decoding error. -/
  BodyParser : GoString → Option User
  /-- The call `json.Unmarshal(c.Body(), &loginData)`. -/
  Unmarshal : GoString → Option User
  /-- The call `bcrypt.GenerateFromPassword(pw, bcrypt.DefaultCost)`: hash or error text. -/
  GenerateFromPassword : GoString → Except GoString GoString
  /-- The call `bcrypt.CompareHashAndPassword(hash, pw)`: `true` when it returns nil. -/
  CompareHashAndPassword : GoString → GoString → Bool
  /-- The call `primitive.NewObjectID()`. -/
  NewObjectID : ObjectID
  /-- Error returned by the `InsertOne` call of this invocation, if it fails. -/
  insertErr : Option GoString
  /-- Whether the `FindOne` call of this invocation fails for a reason of the driver. -/
  findErr : Bool
  /-- The call `time.Now()`. -/
  Now : Time
  /-- The call `os.Getenv("JWT_SECRET")`. -/
  jwtSecret : GoString
  /-- The call `token.SignedString(secret)` on an HS256 token with the given claims. -/
  SignedString : MapClaims → GoString → Except GoString GoString

/-- The call `collection.InsertOne(ctx, doc)`: appends the document unless it fails. -/
def InsertOne {α : Type} (env : Env) (coll : List α) (doc : α) : Except GoString (List α) :=
  match env.insertErr with
  | some err => .error err
  | none => .ok (coll ++ [doc])

/-- The call `collection.FindOne(ctx, bson.M{"email": email}).Decode(&storedUser)`:
the first stored user with that email; `none` stands for any returned error. -/
def FindOne (env : Env) (coll : List User) (email : GoString) : Option User :=
  if env.findErr then none else coll.find? (fun u => u.Email = email)

/-- The response `c.Status(status).JSON(fiber.Map{"error": msg})`. -/
def errorResponse (status : Nat) (msg : String) : Response :=
  ⟨status, [(lit "error", .str (lit msg))]⟩

/-- One `log.Println` / `log.Printf` call: appends an entry to the log. -/
def World.logf (w : World) (entry : GoString) : World :=
  { w with log := w.log ++ [entry] }

/-! ## The handlers -/

/-- Handler `Register` (authController.go, lines 51-88). -/
def Register (env : Env) (c : Ctx) (w : World) : Response × World :=
  match env.BodyParser c.Body with
  | none => (errorResponse StatusBadRequest "Invalid data", w)
  | some user =>
    match env.GenerateFromPassword user.Password with
    | .error _ => (errorResponse StatusInternalServerError "Error hashing password", w)
    | .ok hashedPassword =>
      let user := { user with Password := hashedPassword }
      let user := { user with ID := env.NewObjectID }
      match InsertOne env w.users user with
      | .error err =>
        (errorResponse StatusInternalServerError "Error saving user",
          w.logf (lit "Error inserting user: " ++ err))
      | .ok users =>
        let w := { w with users := users }
        let user := { user with Password := [] }
        (⟨StatusOK,
          [(lit "message", .str (lit "User successfully registered")),
           (lit "user", .map
             [(lit "_id", user.ID.Hex),
              (lit "name", user.Name),
              (lit "email", user.Email)])]⟩, w)

/-- The claim set `generateJWT` builds (lines 169-175) before signing. -/
def jwtClaims (now : Time) (email userID : GoString) : MapClaims :=
  let claims : MapClaims := []
  let claims := claims.set (lit "email") (.str email)
  let claims := claims.set (lit "user_id") (.str userID)
  let claims := claims.set (lit "exp") (.num (now.Add (Hour * 24)).Unix)
  claims

/-- Helper `generateJWT` (lines 168-188): the signed token or the signing error, and
the world after its log call. -/
def generateJWT (env : Env) (email userID : GoString) (w : World) :
    Except GoString GoString × World :=
  let claims := jwtClaims env.Now email userID
  match env.SignedString claims env.jwtSecret with
  | .error err => (.error err, w.logf (lit "Error creating JWT: " ++ err))
  | .ok tokenString => (.ok tokenString, w)

/-- Handler `Login` (lines 90-131). -/
def Login (env : Env) (c : Ctx) (w : World) : Response × World :=
  match env.Unmarshal c.Body with
  | none => (errorResponse StatusBadRequest "Invalid data", w)
  | some loginData =>
    match FindOne env w.users loginData.Email with
    | none => (errorResponse StatusUnauthorized "User not found", w)
    | some storedUser =>
      let w := w.logf (lit "Login password: " ++ loginData.Password)
      let w := w.logf (lit "Stored hashed password: " ++ storedUser.Password)
      if env.CompareHashAndPassword storedUser.Password loginData.Password = false then
        (errorResponse StatusUnauthorized "Invalid password", w)
      else
        match generateJWT env storedUser.Email storedUser.ID.Hex w with
        | (.error err, w) =>
          (errorResponse StatusInternalServerError "Error generating token",
            w.logf (lit "Error generating JWT token: " ++ err))
        | (.ok token, w) =>
          (⟨StatusOK, [(lit "user", .user storedUser), (lit "token", .str token)]⟩,
            w.logf (lit "Generated JWT token: " ++ token))

/-- Outcome of a handler that can panic at run time. -/
inductive Outcome where
  | returned (r : Response) (w : World)
  | panicked (w : World)
deriving DecidableEq, Repr

/-- Handler `Logout` (lines 133-165). -/
def Logout (env : Env) (c : Ctx) (w : World) : Outcome :=
  let token := c.Get
  if token = [] then
    .returned (errorResponse StatusBadRequest "No token provided") w
  else
    match sliceFrom token (lit "Bearer ").length with
    | none => .panicked w
    | some token =>
      let blacklistedToken : BlacklistedToken :=
        { Token := token, CreatedAt := env.Now.Unix }
      match InsertOne env w.blacklisted_tokens blacklistedToken with
      | .error _ =>
        .returned (errorResponse StatusInternalServerError "Error blacklisting token") w
      | .ok coll =>
        .returned
          ⟨StatusOK, [(lit "message",
            .str (lit "Successfully logged out. Token has been blacklisted."))]⟩
          { w with blacklisted_tokens := coll }

/-! ## Sample inputs

Concrete requests, stores and environments at which the theorems below are evaluated.
The stand-ins for bcrypt and for the HS256 signature are arbitrary: the general theorems
hold for every `Env`. -/

/-- Stand-in for a bcrypt hash of `pw`. -/
def toyHash (pw : GoString) : GoString := lit "$2a$10$" ++ pw.reverse

/-- Stand-in for a signed token: it depends on the `user_id` claim only. -/
def toySign (claims : MapClaims) (_secret : GoString) : Except GoString GoString :=
  match claims.get (lit "user_id") with
  | some (.str id) => .ok (lit "hdr." ++ id ++ lit ".sig")
  | _ => .error (lit "key is invalid")

/-- An environment in which the request body decodes to `decoded` and the store call
returns `insertErr`; the clock reads 2026-01-01T00:00:00.5Z. -/
def sampleEnv (decoded : Option User) (insertErr : Option GoString) : Env where
  BodyParser := fun _ => decoded
  Unmarshal := fun _ => decoded
  GenerateFromPassword := fun pw => .ok (toyHash pw)
  CompareHashAndPassword := fun h pw => decide (h = toyHash pw)
  NewObjectID := ⟨[1, 2, 3, 4, 5, 6, 7, 8, 9, 10, 11, 255]⟩
  insertErr := insertErr
  findErr := false
  Now := 1767225600500000000
  jwtSecret := lit "s3cr3t"
  SignedString := toySign

/-- The zero `ObjectID`, the identifier of a decoded request that carries none. -/
def NilObjectID : ObjectID := ⟨List.replicate 12 0⟩

/-- A stored user: Al, registered with the password `secret123`. -/
def storedAl : User :=
  { ID := ⟨[101, 79, 12, 0, 0, 0, 0, 0, 0, 0, 0, 42]⟩, Name := lit "Al",
    Email := lit "a@x.com", Password := toyHash (lit "secret123") }

/-- A world whose credential store holds Al only. -/
def worldAl : World := { users := [storedAl], blacklisted_tokens := [], log := [] }

/-- The empty world. -/
def world0 : World := { users := [], blacklisted_tokens := [], log := [] }

/-- A world that holds Al, one token revoked earlier and one log entry. -/
def worldRevoked : World :=
  { users := [storedAl],
    blacklisted_tokens := [{ Token := lit "hdr.old.sig", CreatedAt := 1767139200 }],
    log := [lit "Generated JWT token: hdr.old.sig"] }

/-- A decoded request body with the given name, email and password. -/
def decodedUser (name email password : String) : User :=
  { ID := NilObjectID, Name := lit name, Email := lit email, Password := lit password }

/-- A request with a body and no `Authorization` header. -/
def bodyCtx (body : String) : Ctx := { Body := lit body, Authorization := none }

/-- A request with an empty body and the given `Authorization` header. -/
def headerCtx (header : String) : Ctx := { Body := [], Authorization := some (lit header) }

/-! ## General facts about the handlers -/

theorem lit_Bearer_length : (lit "Bearer ").length = 7 := by decide

theorem sliceFrom_append (p t : GoString) : sliceFrom (p ++ t) p.length = some t := by
  simp [sliceFrom]

theorem Time_Unix_Add_day (now : Time) : (now.Add (Hour * 24)).Unix = now.Unix + 86400 := by
  show (now + 3600 * 1000000000 * 24) / (1000000000 : Int) = now / 1000000000 + 86400
  have h : (3600 * 1000000000 * 24 : Int) = 86400 * 1000000000 := by norm_num
  rw [h, Int.add_mul_ediv_right _ _ (by norm_num)]

/-- Register on a decoded request whose hashing and insert succeed. -/
theorem Register_success (env : Env) (c : Ctx) (w : World) (user : User) (h : GoString)
    (hparse : env.BodyParser c.Body = some user)
    (hhash : env.GenerateFromPassword user.Password = .ok h)
    (hins : env.insertErr = none) :
    Register env c w =
      (⟨StatusOK,
        [(lit "message", .str (lit "User successfully registered")),
         (lit "user", .map
           [(lit "_id", env.NewObjectID.Hex), (lit "name", user.Name),
            (lit "email", user.Email)])]⟩,
       { w with users := w.users ++
          [{ ID := env.NewObjectID, Name := user.Name, Email := user.Email,
             Password := h }] }) := by
  simp [Register, hparse, hhash, InsertOne, hins]

/-- Register on a decoded request whose hashing fails. -/
theorem Register_hash_error (env : Env) (c : Ctx) (w : World) (user : User) (e : GoString)
    (hparse : env.BodyParser c.Body = some user)
    (hhash : env.GenerateFromPassword user.Password = .error e) :
    Register env c w =
      (errorResponse StatusInternalServerError "Error hashing password", w) := by
  simp [Register, hparse, hhash]

/-- Register on a decoded request whose insert fails. -/
theorem Register_insert_error (env : Env) (c : Ctx) (w : World) (user : User)
    (h e : GoString)
    (hparse : env.BodyParser c.Body = some user)
    (hhash : env.GenerateFromPassword user.Password = .ok h)
    (hins : env.insertErr = some e) :
    Register env c w =
      (errorResponse StatusInternalServerError "Error saving user",
       w.logf (lit "Error inserting user: " ++ e)) := by
  simp [Register, hparse, hhash, InsertOne, hins]

/-- Login on a decoded request whose email lookup fails. -/
theorem Login_not_found (env : Env) (c : Ctx) (w : World) (loginData : User)
    (hparse : env.Unmarshal c.Body = some loginData)
    (hfind : FindOne env w.users loginData.Email = none) :
    Login env c w = (errorResponse StatusUnauthorized "User not found", w) := by
  simp [Login, hparse, hfind]

/-- Login on a decoded request whose password does not verify. -/
theorem Login_wrong_password (env : Env) (c : Ctx) (w : World) (loginData storedUser : User)
    (hparse : env.Unmarshal c.Body = some loginData)
    (hfind : FindOne env w.users loginData.Email = some storedUser)
    (hpw : env.CompareHashAndPassword storedUser.Password loginData.Password = false) :
    Login env c w =
      (errorResponse StatusUnauthorized "Invalid password",
       (w.logf (lit "Login password: " ++ loginData.Password)).logf
         (lit "Stored hashed password: " ++ storedUser.Password)) := by
  simp [Login, hparse, hfind, hpw]

/-- Login on a decoded request whose password verifies: the rest is `generateJWT` on the
stored user. -/
theorem Login_verified (env : Env) (c : Ctx) (w : World) (loginData storedUser : User)
    (hparse : env.Unmarshal c.Body = some loginData)
    (hfind : FindOne env w.users loginData.Email = some storedUser)
    (hpw : env.CompareHashAndPassword storedUser.Password loginData.Password = true) :
    Login env c w =
      match generateJWT env storedUser.Email storedUser.ID.Hex
          ((w.logf (lit "Login password: " ++ loginData.Password)).logf
            (lit "Stored hashed password: " ++ storedUser.Password)) with
      | (.error err, w1) =>
        (errorResponse StatusInternalServerError "Error generating token",
          w1.logf (lit "Error generating JWT token: " ++ err))
      | (.ok token, w1) =>
        (⟨StatusOK, [(lit "user", .user storedUser), (lit "token", .str token)]⟩,
          w1.logf (lit "Generated JWT token: " ++ token)) := by
  simp [Login, hparse, hfind, hpw]

/-! ## Login: the two credential failures -/

/-- C1, counterexample.  On the store holding Al, a Login with the unknown email
`b@x.com` and a Login with Al's email and a wrong password are both credential
failures, yet their responses differ (the error messages are not the same). -/
theorem Login_failure_responses_differ :
    FindOne (sampleEnv (some (decodedUser "" "b@x.com" "secret123")) none)
        worldAl.users (lit "b@x.com") = none ∧
    FindOne (sampleEnv (some (decodedUser "" "a@x.com" "wrongpass")) none)
        worldAl.users (lit "a@x.com") = some storedAl ∧
    (sampleEnv (some (decodedUser "" "a@x.com" "wrongpass")) none).CompareHashAndPassword
        storedAl.Password (lit "wrongpass") = false ∧
    (Login (sampleEnv (some (decodedUser "" "b@x.com" "secret123")) none)
        (bodyCtx "b@x.com secret123") worldAl).1 ≠
    (Login (sampleEnv (some (decodedUser "" "a@x.com" "wrongpass")) none)
        (bodyCtx "a@x.com wrongpass") worldAl).1 := by
  decide

/-- C1, amended.  For every store state and every pair of Login requests whose bodies
parse, one with an email that is not found and one whose email is found but whose
password does not verify, both responses carry the unauthorized status and a payload
with the single key `error`; the message is `User not found` for the first and
`Invalid password` for the second. -/
theorem Login_failure_same_status_distinct_message
    (env1 env2 : Env) (c1 c2 : Ctx) (w : World) (d1 d2 storedUser : User)
    (hparse1 : env1.Unmarshal c1.Body = some d1)
    (hparse2 : env2.Unmarshal c2.Body = some d2)
    (hfind1 : FindOne env1 w.users d1.Email = none)
    (hfind2 : FindOne env2 w.users d2.Email = some storedUser)
    (hpw : env2.CompareHashAndPassword storedUser.Password d2.Password = false) :
    (Login env1 c1 w).1.status = StatusUnauthorized ∧
    (Login env2 c2 w).1.status = StatusUnauthorized ∧
    (Login env1 c1 w).1.body = [(lit "error", .str (lit "User not found"))] ∧
    (Login env2 c2 w).1.body = [(lit "error", .str (lit "Invalid password"))] := by
  rw [Login_not_found env1 c1 w d1 hparse1 hfind1,
    Login_wrong_password env2 c2 w d2 storedUser hparse2 hfind2 hpw]
  exact ⟨rfl, rfl, rfl, rfl⟩

/-- C1, witness of the amended statement on the store holding Al. -/
theorem Login_failure_same_status_distinct_message_witness :
    (Login (sampleEnv (some (decodedUser "" "b@x.com" "secret123")) none)
        (bodyCtx "b@x.com secret123") worldAl).1.status = StatusUnauthorized ∧
    (Login (sampleEnv (some (decodedUser "" "a@x.com" "wrongpass")) none)
        (bodyCtx "a@x.com wrongpass") worldAl).1.status = StatusUnauthorized ∧
    (Login (sampleEnv (some (decodedUser "" "b@x.com" "secret123")) none)
        (bodyCtx "b@x.com secret123") worldAl).1.body =
      [(lit "error", .str (lit "User not found"))] ∧
    (Login (sampleEnv (some (decodedUser "" "a@x.com" "wrongpass")) none)
        (bodyCtx "a@x.com wrongpass") worldAl).1.body =
      [(lit "error", .str (lit "Invalid password"))] :=
  Login_failure_same_status_distinct_message
    (sampleEnv (some (decodedUser "" "b@x.com" "secret123")) none)
    (sampleEnv (some (decodedUser "" "a@x.com" "wrongpass")) none)
    (bodyCtx "b@x.com secret123") (bodyCtx "a@x.com wrongpass") worldAl
    (decodedUser "" "b@x.com" "secret123") (decodedUser "" "a@x.com" "wrongpass") storedAl
    rfl rfl (by decide) (by decide) (by decide)

/-! ## Register: duplicate emails -/

/-- C2, counterexample.  The store holds Al under `a@x.com`; a Register with the same
email is not answered with the bad-request status and does not leave the store
unchanged: when the insert succeeds the answer is 200 and the store holds two records
with that email, and when the insert fails the answer is 500. -/
theorem Register_duplicate_email_not_rejected :
    (∃ u ∈ worldAl.users, u.Email = lit "a@x.com") ∧
    (Register (sampleEnv (some (decodedUser "Bo" "a@x.com" "hunter2")) none)
        (bodyCtx "Bo a@x.com hunter2") worldAl).1.status = StatusOK ∧
    ((Register (sampleEnv (some (decodedUser "Bo" "a@x.com" "hunter2")) none)
        (bodyCtx "Bo a@x.com hunter2") worldAl).2.users.filter
          (fun u => u.Email = lit "a@x.com")).length = 2 ∧
    (Register (sampleEnv (some (decodedUser "Bo" "a@x.com" "hunter2")) none)
        (bodyCtx "Bo a@x.com hunter2") worldAl).2.users ≠ worldAl.users ∧
    (Register (sampleEnv (some (decodedUser "Bo" "a@x.com" "hunter2"))
          (some (lit "E11000 duplicate key error")))
        (bodyCtx "Bo a@x.com hunter2") worldAl).1.status = StatusInternalServerError := by
  decide

/-- C2, amended.  Register makes no duplicate-email check.  For every store state that
already holds a user with email e and every Register request with email e whose body
parses: the response never has the bad-request status; when hashing and the insert
succeed the response is 200 and one more record with email e is appended to the store;
when hashing or the insert fails the response is 500 and the store is unchanged. -/
theorem Register_duplicate_email
    (env : Env) (c : Ctx) (w : World) (user : User)
    (hdup : ∃ u ∈ w.users, u.Email = user.Email)
    (hparse : env.BodyParser c.Body = some user) :
    (Register env c w).1.status ≠ StatusBadRequest ∧
    (∀ h, env.GenerateFromPassword user.Password = .ok h → env.insertErr = none →
      (Register env c w).1.status = StatusOK ∧
      (Register env c w).2.users = w.users ++
        [{ ID := env.NewObjectID, Name := user.Name, Email := user.Email,
           Password := h }]) ∧
    (((∃ e, env.GenerateFromPassword user.Password = .error e) ∨
        (∃ e, env.insertErr = some e)) →
      (Register env c w).1.status = StatusInternalServerError ∧
      (Register env c w).2.users = w.users) := by
  have _ := hdup
  refine ⟨?_, ?_, ?_⟩
  · cases hh : env.GenerateFromPassword user.Password with
    | error e =>
      rw [Register_hash_error env c w user e hparse hh]
      exact (by decide : (500 : Nat) ≠ 400)
    | ok h =>
      cases hi : env.insertErr with
      | none =>
        rw [Register_success env c w user h hparse hh hi]
        exact (by decide : (200 : Nat) ≠ 400)
      | some e =>
        rw [Register_insert_error env c w user h e hparse hh hi]
        exact (by decide : (500 : Nat) ≠ 400)
  · intro h hh hi
    rw [Register_success env c w user h hparse hh hi]
    exact ⟨rfl, rfl⟩
  · rintro (⟨e, hh⟩ | ⟨e, hi⟩)
    · rw [Register_hash_error env c w user e hparse hh]
      exact ⟨rfl, rfl⟩
    · cases hh : env.GenerateFromPassword user.Password with
      | error e2 =>
        rw [Register_hash_error env c w user e2 hparse hh]
        exact ⟨rfl, rfl⟩
      | ok h =>
        rw [Register_insert_error env c w user h e hparse hh hi]
        exact ⟨rfl, rfl⟩

/-- C2, witness of the amended statement: a second registration of `a@x.com`. -/
theorem Register_duplicate_email_witness :
    (Register (sampleEnv (some (decodedUser "Bo" "a@x.com" "hunter2")) none)
        (bodyCtx "Bo a@x.com hunter2") worldAl).1.status = StatusOK ∧
    (Register (sampleEnv (some (decodedUser "Bo" "a@x.com" "hunter2")) none)
        (bodyCtx "Bo a@x.com hunter2") worldAl).2.users = worldAl.users ++
        [{ ID := ⟨[1, 2, 3, 4, 5, 6, 7, 8, 9, 10, 11, 255]⟩, Name := lit "Bo",
           Email := lit "a@x.com", Password := toyHash (lit "hunter2") }] :=
  (Register_duplicate_email
    (sampleEnv (some (decodedUser "Bo" "a@x.com" "hunter2")) none)
    (bodyCtx "Bo a@x.com hunter2") worldAl (decodedUser "Bo" "a@x.com" "hunter2")
    ⟨storedAl, by decide, by decide⟩ rfl).2.1 (toyHash (lit "hunter2")) rfl rfl

/-! ## Login: the user value of a successful response -/

/-- C3, evaluation at the failing input.  Al logs in with the right password: the
response is 200 and the value under `user` is the stored record itself, whose password
field still holds the stored hash (it is not empty). -/
theorem Login_success_returns_stored_hash :
    (Login (sampleEnv (some (decodedUser "" "a@x.com" "secret123")) none)
        (bodyCtx "a@x.com secret123") worldAl).1 =
      ⟨StatusOK, [(lit "user", .user storedAl),
        (lit "token", .str (lit "hdr.654f0c00000000000000002a.sig"))]⟩ ∧
    storedAl.Password = toyHash (lit "secret123") ∧
    storedAl.Password ≠ [] := by
  decide

/-! ## Logout -/

/-- Logout with an absent or empty `Authorization` header answers 400 with the message
`No token provided` and changes nothing. -/
theorem Logout_empty_header (env : Env) (c : Ctx) (w : World) (h : c.Get = []) :
    Logout env c w = .returned (errorResponse StatusBadRequest "No token provided") w := by
  simp [Logout, h]

/-- C4, evaluation at the failing input.  With the header `abc` the slice
`token[len("Bearer "):]` is out of bounds: Logout panics and sends no response. -/
theorem Logout_short_header_panics :
    Logout (sampleEnv none none) (headerCtx "abc") world0 = .panicked world0 := by
  decide

/-- C5, evaluation at the failing input.  With the header `Bearer ` the presented token
is empty, yet Logout answers 200 and inserts a record with the empty token. -/
theorem Logout_bare_scheme_inserts_empty_token :
    sliceFrom (lit "Bearer ") (lit "Bearer ").length = some [] ∧
    Logout (sampleEnv none none) (headerCtx "Bearer ") world0 =
      .returned
        ⟨StatusOK, [(lit "message",
          .str (lit "Successfully logged out. Token has been blacklisted."))]⟩
        { world0 with blacklisted_tokens := [{ Token := [], CreatedAt := 1767225600 }] } := by
  decide

/-- C6.  For every non-empty string t and every state, when the insert succeeds Logout
with the header `Bearer ` followed by t returns the OK status with a message payload and
appends exactly one record to the Revocation Store, whose token is exactly t and whose
timestamp is the clock reading in nanoseconds divided by 1000000000 and rounded down,
that is the current time in whole seconds since the epoch; the existing records, the
users and the log are unchanged. -/
theorem Logout_bearer_inserts_token
    (env : Env) (w : World) (body t : GoString)
    (ht : t ≠ [])
    (hins : env.insertErr = none) :
    Logout env { Body := body, Authorization := some (lit "Bearer " ++ t) } w =
      .returned
        ⟨200, [(lit "message",
          .str (lit "Successfully logged out. Token has been blacklisted."))]⟩
        { users := w.users,
          blacklisted_tokens := w.blacklisted_tokens ++
            [{ Token := t, CreatedAt := env.Now / 1000000000 }],
          log := w.log } ∧
    (env.Now / 1000000000) * 1000000000 ≤ env.Now ∧
    env.Now < (env.Now / 1000000000 + 1) * 1000000000 := by
  have _ := ht
  have hne : lit "Bearer " ++ t ≠ [] := by
    intro h
    have := congrArg List.length h
    simp [lit_Bearer_length] at this
  refine ⟨?_, ?_, ?_⟩
  · simp [Logout, Ctx.Get, hne, sliceFrom_append, InsertOne, hins, Time.Unix, Second,
      StatusOK]
  · exact Int.ediv_mul_le env.Now (by norm_num)
  · exact Int.lt_ediv_add_one_mul_self env.Now (by norm_num)

/-- C6, witness: at 2026-01-01T00:00:00.5Z, on a store that already holds one revoked
token, logging out with the token `tok` appends the record with timestamp 1767225600 and
keeps the earlier record. -/
theorem Logout_bearer_inserts_token_witness :
    Logout (sampleEnv none none)
        { Body := [], Authorization := some (lit "Bearer tok") } worldRevoked =
      .returned
        ⟨200, [(lit "message",
          .str (lit "Successfully logged out. Token has been blacklisted."))]⟩
        { users := [storedAl],
          blacklisted_tokens :=
            [{ Token := lit "hdr.old.sig", CreatedAt := 1767139200 },
             { Token := lit "tok", CreatedAt := 1767225600 }],
          log := [lit "Generated JWT token: hdr.old.sig"] } :=
  (Logout_bearer_inserts_token (sampleEnv none none) worldRevoked [] (lit "tok")
    (by decide) rfl).1

/-! ## Token issuance -/

/-- C7.  For every email, identifier and issuance instant, the claim set built by
generateJWT holds exactly three entries: the email under `email`, the identifier under
`user_id`, and under `exp` the Unix time of the instant plus 86400 seconds; generateJWT
signs that claim set; and a Login whose password verifies answers with what generateJWT
returns for the stored user's email and identifier, whatever the request submitted. -/
theorem generateJWT_claims_and_Login_binding :
    (∀ (now : Time) (email userID : GoString),
      jwtClaims now email userID =
        [(lit "email", .str email), (lit "user_id", .str userID),
         (lit "exp", .num (now.Unix + 86400))]) ∧
    (∀ (env : Env) (email userID : GoString) (w : World),
      (generateJWT env email userID w).1 =
        env.SignedString (jwtClaims env.Now email userID) env.jwtSecret) ∧
    (∀ (env : Env) (c : Ctx) (w : World) (loginData storedUser : User),
      env.Unmarshal c.Body = some loginData →
      FindOne env w.users loginData.Email = some storedUser →
      env.CompareHashAndPassword storedUser.Password loginData.Password = true →
      (Login env c w).1 =
        match env.SignedString
            (jwtClaims env.Now storedUser.Email storedUser.ID.Hex) env.jwtSecret with
        | .ok token =>
          ⟨StatusOK, [(lit "user", .user storedUser), (lit "token", .str token)]⟩
        | .error _ => errorResponse StatusInternalServerError "Error generating token") := by
  refine ⟨?_, ?_, ?_⟩
  · intro now email userID
    have h1 : (lit "email" = lit "user_id") = False := by decide
    have h2 : (lit "email" = lit "exp") = False := by decide
    have h3 : (lit "user_id" = lit "exp") = False := by decide
    simp only [jwtClaims, MapClaims.set, h1, h2, h3, if_false, Time_Unix_Add_day]
  · intro env email userID w
    cases h : env.SignedString (jwtClaims env.Now email userID) env.jwtSecret <;>
      simp [generateJWT, h]
  · intro env c w loginData storedUser hparse hfind hpw
    rw [Login_verified env c w loginData storedUser hparse hfind hpw]
    cases h : env.SignedString (jwtClaims env.Now storedUser.Email storedUser.ID.Hex)
      env.jwtSecret <;> simp [generateJWT, h]

/-- C7, witness: a request that submits Al's email, the right password and a foreign
identifier obtains the token of the stored identifier. -/
theorem generateJWT_claims_and_Login_binding_witness :
    (Login (sampleEnv (some { decodedUser "" "a@x.com" "secret123" with
          ID := ⟨[9, 9, 9, 9, 9, 9, 9, 9, 9, 9, 9, 9]⟩ }) none)
        (bodyCtx "a@x.com secret123") worldAl).1 =
      match toySign (jwtClaims 1767225600500000000 storedAl.Email storedAl.ID.Hex)
          (lit "s3cr3t") with
      | .ok token =>
        ⟨StatusOK, [(lit "user", .user storedAl), (lit "token", .str token)]⟩
      | .error _ => errorResponse StatusInternalServerError "Error generating token" :=
  generateJWT_claims_and_Login_binding.2.2
    (sampleEnv (some { decodedUser "" "a@x.com" "secret123" with
      ID := ⟨[9, 9, 9, 9, 9, 9, 9, 9, 9, 9, 9, 9]⟩ }) none)
    (bodyCtx "a@x.com secret123") worldAl
    { decodedUser "" "a@x.com" "secret123" with ID := ⟨[9, 9, 9, 9, 9, 9, 9, 9, 9, 9, 9, 9]⟩ }
    storedAl rfl (by decide) (by decide)

/-! ## Login: what is logged -/

/-- C8, evaluation at the failing input.  Two Login runs on the store holding Al that
differ only in the submitted password write different logs: the first entry of each is
the plaintext password of the request, the second the stored hash. -/
theorem Login_log_depends_on_password :
    (Login (sampleEnv (some (decodedUser "" "a@x.com" "guess1")) none)
        (bodyCtx "a@x.com") worldAl).2.log =
      [lit "Login password: guess1",
       lit "Stored hashed password: $2a$10$321terces"] ∧
    (Login (sampleEnv (some (decodedUser "" "a@x.com" "guess2")) none)
        (bodyCtx "a@x.com") worldAl).2.log =
      [lit "Login password: guess2",
       lit "Stored hashed password: $2a$10$321terces"] ∧
    (Login (sampleEnv (some (decodedUser "" "a@x.com" "guess1")) none)
        (bodyCtx "a@x.com") worldAl).2.log ≠
    (Login (sampleEnv (some (decodedUser "" "a@x.com" "guess2")) none)
        (bodyCtx "a@x.com") worldAl).2.log := by
  decide

/-! ## Register: the success response and the password constraint -/

/-- C9, counterexample.  Registering Al on the empty store succeeds, but the status is
200, not the created status, and the keys of the user object are `_id`, `name`, `email`,
not `id`, `name`, `email`. -/
theorem Register_success_not_created_status :
    (Register (sampleEnv (some (decodedUser "Al" "a@x.com" "secret123")) none)
        (bodyCtx "Al a@x.com secret123") world0).1 =
      ⟨200,
        [(lit "message", .str (lit "User successfully registered")),
         (lit "user", .map
           [(lit "_id", lit "0102030405060708090a0bff"), (lit "name", lit "Al"),
            (lit "email", lit "a@x.com")])]⟩ ∧
    (Register (sampleEnv (some (decodedUser "Al" "a@x.com" "secret123")) none)
        (bodyCtx "Al a@x.com secret123") world0).1.status ≠ StatusCreated ∧
    (Register (sampleEnv (some (decodedUser "Al" "a@x.com" "secret123")) none)
        (bodyCtx "Al a@x.com secret123") world0).1.body.lookup (lit "user") ≠
      some (.map [(lit "id", lit "0102030405060708090a0bff"), (lit "name", lit "Al"),
        (lit "email", lit "a@x.com")]) := by
  decide

/-- C9, amended.  For every Register request that succeeds (body parses, hashing and
store insert succeed), the response has the OK status (200) and the payload
`message`, `user`, where the user object has exactly the keys `_id`, `name` and `email`,
carrying the hexadecimal form of the newly assigned identifier and the submitted name
and email; it has no field for the password or its hash. -/
theorem Register_success_response
    (env : Env) (c : Ctx) (w : World) (user : User) (h : GoString)
    (hparse : env.BodyParser c.Body = some user)
    (hhash : env.GenerateFromPassword user.Password = .ok h)
    (hins : env.insertErr = none) :
    (Register env c w).1.status = StatusOK ∧
    (Register env c w).1.body =
      [(lit "message", .str (lit "User successfully registered")),
       (lit "user", .map
         [(lit "_id", env.NewObjectID.Hex), (lit "name", user.Name),
          (lit "email", user.Email)])] ∧
    (∃ m, (Register env c w).1.body.lookup (lit "user") = some (.map m) ∧
      m.map Prod.fst = [lit "_id", lit "name", lit "email"]) := by
  rw [Register_success env c w user h hparse hhash hins]
  refine ⟨rfl, rfl,
    [(lit "_id", env.NewObjectID.Hex), (lit "name", user.Name), (lit "email", user.Email)],
    ?_, rfl⟩
  have hk : (lit "user" == lit "message") = false := by decide
  have hu : (lit "user" == lit "user") = true := by decide
  simp only [List.lookup, hk, hu]

/-- C9, witness of the amended statement: registering Al on the empty store. -/
theorem Register_success_response_witness :
    (Register (sampleEnv (some (decodedUser "Al" "a@x.com" "secret123")) none)
        (bodyCtx "Al a@x.com secret123") world0).1.status = StatusOK ∧
    (Register (sampleEnv (some (decodedUser "Al" "a@x.com" "secret123")) none)
        (bodyCtx "Al a@x.com secret123") world0).1.body =
      [(lit "message", .str (lit "User successfully registered")),
       (lit "user", .map
         [(lit "_id", ObjectID.Hex ⟨[1, 2, 3, 4, 5, 6, 7, 8, 9, 10, 11, 255]⟩),
          (lit "name", lit "Al"), (lit "email", lit "a@x.com")])] ∧
    (∃ m, (Register (sampleEnv (some (decodedUser "Al" "a@x.com" "secret123")) none)
        (bodyCtx "Al a@x.com secret123") world0).1.body.lookup (lit "user") =
          some (.map m) ∧
      m.map Prod.fst = [lit "_id", lit "name", lit "email"]) :=
  Register_success_response
    (sampleEnv (some (decodedUser "Al" "a@x.com" "secret123")) none)
    (bodyCtx "Al a@x.com secret123") world0 (decodedUser "Al" "a@x.com" "secret123")
    (toyHash (lit "secret123")) rfl rfl rfl

/-- C10, counterexample.  A Register request whose password is the empty string is not
rejected: the answer is 200 and the store goes from no record to one record, whose
password field is the hash of the empty password. -/
theorem Register_empty_password_accepted :
    (decodedUser "Al" "a@x.com" "").Password = [] ∧
    (Register (sampleEnv (some (decodedUser "Al" "a@x.com" "")) none)
        (bodyCtx "Al a@x.com") world0).1.status = StatusOK ∧
    (Register (sampleEnv (some (decodedUser "Al" "a@x.com" "")) none)
        (bodyCtx "Al a@x.com") world0).2.users =
      [{ ID := ⟨[1, 2, 3, 4, 5, 6, 7, 8, 9, 10, 11, 255]⟩, Name := lit "Al",
         Email := lit "a@x.com", Password := toyHash [] }] := by
  decide

/-- C10, amended.  Register does not test the password for emptiness.  For every
Register request whose body parses with the empty password: the empty password is handed
to the hasher like any other; when hashing and the insert succeed the response is 200
and one user record holding that hash is inserted; and whenever the response is an error
response (status other than 200) no user record is inserted. -/
theorem Register_empty_password
    (env : Env) (c : Ctx) (w : World) (user : User)
    (hparse : env.BodyParser c.Body = some user)
    (hpw : user.Password = []) :
    (∀ h, env.GenerateFromPassword [] = .ok h → env.insertErr = none →
      (Register env c w).1.status = StatusOK ∧
      (Register env c w).2.users = w.users ++
        [{ ID := env.NewObjectID, Name := user.Name, Email := user.Email,
           Password := h }]) ∧
    ((Register env c w).1.status ≠ StatusOK → (Register env c w).2.users = w.users) := by
  refine ⟨?_, ?_⟩
  · intro h hh hi
    rw [← hpw] at hh
    rw [Register_success env c w user h hparse hh hi]
    exact ⟨rfl, rfl⟩
  · cases hh : env.GenerateFromPassword user.Password with
    | error e =>
      rw [Register_hash_error env c w user e hparse hh]
      exact fun _ => rfl
    | ok h =>
      cases hi : env.insertErr with
      | none =>
        rw [Register_success env c w user h hparse hh hi]
        exact fun hne => absurd rfl hne
      | some e =>
        rw [Register_insert_error env c w user h e hparse hh hi]
        exact fun _ => rfl

/-- C10, witness of the amended statement: registering with the empty password. -/
theorem Register_empty_password_witness :
    (Register (sampleEnv (some (decodedUser "Cy" "c@x.com" "")) none)
        (bodyCtx "Cy c@x.com") worldAl).1.status = StatusOK ∧
    (Register (sampleEnv (some (decodedUser "Cy" "c@x.com" "")) none)
        (bodyCtx "Cy c@x.com") worldAl).2.users = worldAl.users ++
      [{ ID := ⟨[1, 2, 3, 4, 5, 6, 7, 8, 9, 10, 11, 255]⟩, Name := lit "Cy",
         Email := lit "c@x.com", Password := toyHash [] }] :=
  (Register_empty_password
    (sampleEnv (some (decodedUser "Cy" "c@x.com" "")) none)
    (bodyCtx "Cy c@x.com") worldAl (decodedUser "Cy" "c@x.com" "") rfl rfl).1
    (toyHash []) rfl rfl

end controllers
